import Mathlib

/-!
Verification of the astro-ai-archiver scan/extract/persist pipeline and query
gateway. The Go source is shallowly embedded: machine integers are modelled as
Int, SQLite REAL header values as exact rationals (all numeric constants that
occur in the embedded code are exactly representable in binary floating point,
so truncation results agree with the Go float64 computation on the inputs that
appear in the theorems below), absolute file paths as lists of path components,
and the SQLite fits_files table as an association list keyed by relative path.
-/

namespace AAA

/-- listLeads pre l: pre is a leading segment of l (Go strings.HasPre-style
check, generalised so it also serves component-wise path comparisons). -/
def listLeads {α : Type} [BEq α] : List α → List α → Bool
  | [], _ => true
  | _ :: _, [] => false
  | a :: as, b :: bs => a == b && listLeads as bs

/-- listContainsSeq l sub: sub occurs contiguously inside l
(Go strings.Contains on the underlying characters). -/
def listContainsSeq : List Char → List Char → Bool
  | [], sub => listLeads sub ([] : List Char)
  | c :: t, sub => listLeads sub (c :: t) || listContainsSeq t sub

/-- Go strings.HasPre-style check on strings: s starts with pre. -/
def goStarts (s pre : String) : Bool := listLeads pre.data s.data

/-- Go strings.Contains: sub occurs as a substring of s. -/
def goContains (s sub : String) : Bool := listContainsSeq s.data sub.data

/-- Go strings.ToUpper, restricted to the ASCII range used by the queries. -/
def goToUpper (s : String) : String := String.mk (s.data.map Char.toUpper)

/-- Go strings.TrimSpace: drop leading and trailing whitespace. -/
def goTrim (s : String) : String :=
  String.mk (((s.data.dropWhile Char.isWhitespace).reverse.dropWhile
    Char.isWhitespace).reverse)

/-- database.go: the fixed denylist of mutating/administrative keywords. -/
def forbiddenKeywords : List String :=
  ["INSERT", "UPDATE", "DELETE", "DROP", "CREATE", "ALTER",
   "TRUNCATE", "REPLACE", "ATTACH", "DETACH", "PRAGMA"]

/-- database.go validateReadOnlyQuery: returns some errorMessage when the
query is rejected, none when it may run. -/
def validateReadOnlyQuery (query : String) : Option String :=
  let normalized := goToUpper (goTrim query)
  if goStarts normalized "SELECT" = false then
    some "only SELECT queries are allowed"
  else
    match forbiddenKeywords.find? (fun kw => goContains normalized kw) with
    | some kw => some ("forbidden keyword in query: " ++ kw)
    | none => none

/-- database.go Database.ExecuteReadOnlyQuery: validate, then run the query
against the store. The store's row production is abstracted as exec; on a
validation failure exec is never consulted. -/
def executeReadOnlyQuery {ρ : Type} (exec : String → List ρ) (query : String) :
    Except String (List ρ) :=
  match validateReadOnlyQuery query with
  | some e => Except.error e
  | none => Except.ok (exec query)

/-- Go int(x) conversion on a float value, modelled exactly on rationals:
truncation toward zero. -/
def ratTrunc (q : Rat) : Int := if q < 0 then -((-q).floor) else q.floor

/-- Decimal digits of n, zero-padded on the left to width w. -/
def padDigits (w : Nat) (s : String) : String :=
  if s.length < w then String.mk (List.replicate (w - s.length) '0') ++ s else s

/-- Go fmt %0wd on an Int. -/
def govPad (w : Nat) (n : Int) : String :=
  if n < 0 then "-" ++ padDigits (w - 1) (Nat.repr (-n).toNat)
  else padDigits w (Nat.repr n.toNat)

/-- scanner.go lines 324-364: convert the Julian-date header value (assumed to
be a Modified Julian Date) to a YYYY-MM-DD string, by the Meeus Julian-day ->
Gregorian algorithm with the century-correction branch at JD 2299161. -/
def julianToDateString (mjd : Rat) : String :=
  let jd : Rat := mjd + (2400000.5 : Rat)
  let a : Int := ratTrunc (jd + (0.5 : Rat))
  let b : Int :=
    if a ≥ 2299161 then
      let alpha : Int := ratTrunc (((a : Rat) - (1867216.25 : Rat)) / (36524.25 : Rat))
      a + 1 + alpha - Int.tdiv alpha 4
    else a
  let c : Int := b + 1524
  let d : Int := ratTrunc (((c : Rat) - (122.1 : Rat)) / (365.25 : Rat))
  let e : Int := ratTrunc ((365.25 : Rat) * (d : Rat))
  let f : Int := ratTrunc (((c : Rat) - (e : Rat)) / (30.6001 : Rat))
  let day : Int := c - e - ratTrunc ((30.6001 : Rat) * (f : Rat))
  let month : Int := if f ≤ 13 then f - 1 else f - 13
  let year : Int := if month > 2 then d - 4716 else d - 4715
  govPad 4 year ++ "-" ++ govPad 2 month ++ "-" ++ govPad 2 day

/-- One chunk of a Go time layout string, restricted to the chunks the
archiver's layouts use. -/
inductive LTok where
  | year | month | day | hour | minute | second
  | lit (c : Char)
  | fracFixed (n : Nat)
  | zoneISO
deriving Repr, DecidableEq

/-- A parsed Go time value: calendar fields plus the zone offset in minutes
(0 when the input had no zone, matching Go's UTC default). -/
structure GoTime where
  y : Nat
  mo : Nat
  d : Nat
  h : Nat
  mi : Nat
  s : Nat
  off : Int
deriving Repr, DecidableEq

/-- Consume exactly n decimal digits, returning their value. -/
def parseDigitsAux : Nat → Nat → List Char → Option (Nat × List Char)
  | 0, acc, cs => some (acc, cs)
  | n + 1, acc, c :: cs =>
      if c.isDigit then parseDigitsAux n (acc * 10 + (c.toNat - 48)) cs else none
  | _ + 1, _, [] => none

/-- Go time.Parse's implicit fractional second: a period followed by at least
one digit directly after the seconds field is consumed even when the layout
has no fractional chunk. -/
def dropImplicitFrac (cs : List Char) : List Char :=
  match cs with
  | '.' :: c :: rest => if c.isDigit then (c :: rest).dropWhile Char.isDigit else cs
  | _ => cs

/-- Does the remaining layout begin with an explicit fractional-second chunk? -/
def fracLeads : List LTok → Bool
  | LTok.fracFixed _ :: _ => true
  | _ => false

/-- Parse the two-digit zone offset pair hh:mm. -/
def parseZoneHM (cs : List Char) : Option (Nat × List Char) :=
  match parseDigitsAux 2 0 cs with
  | some (hh, ':' :: rest) =>
      match parseDigitsAux 2 0 rest with
      | some (mm, rest2) => some (hh * 60 + mm, rest2)
      | none => none
  | _ => none

/-- Run a Go time layout over the input characters, threading the partially
built time value (Go's zero value: year 0, January 1, midnight, UTC). -/
def runLayout : List LTok → GoTime → List Char → Option (GoTime × List Char)
  | [], acc, cs => some (acc, cs)
  | t :: ts, acc, cs =>
    match t with
    | LTok.year =>
        match parseDigitsAux 4 0 cs with
        | some (v, rest) => runLayout ts { acc with y := v } rest
        | none => none
    | LTok.month =>
        match parseDigitsAux 2 0 cs with
        | some (v, rest) => runLayout ts { acc with mo := v } rest
        | none => none
    | LTok.day =>
        match parseDigitsAux 2 0 cs with
        | some (v, rest) => runLayout ts { acc with d := v } rest
        | none => none
    | LTok.hour =>
        match parseDigitsAux 2 0 cs with
        | some (v, rest) => runLayout ts { acc with h := v } rest
        | none => none
    | LTok.minute =>
        match parseDigitsAux 2 0 cs with
        | some (v, rest) => runLayout ts { acc with mi := v } rest
        | none => none
    | LTok.second =>
        match parseDigitsAux 2 0 cs with
        | some (v, rest) =>
            let rest2 := if fracLeads ts then rest else dropImplicitFrac rest
            runLayout ts { acc with s := v } rest2
        | none => none
    | LTok.lit c =>
        match cs with
        | d :: rest => if d == c then runLayout ts acc rest else none
        | [] => none
    | LTok.fracFixed n =>
        match cs with
        | '.' :: rest =>
            match parseDigitsAux n 0 rest with
            | some (_, rest2) => runLayout ts acc rest2
            | none => none
        | _ => none
    | LTok.zoneISO =>
        match cs with
        | 'Z' :: rest => runLayout ts { acc with off := 0 } rest
        | '+' :: rest =>
            match parseZoneHM rest with
            | some (m, rest2) => runLayout ts { acc with off := (m : Int) } rest2
            | none => none
        | '-' :: rest =>
            match parseZoneHM rest with
            | some (m, rest2) => runLayout ts { acc with off := -(m : Int) } rest2
            | none => none
        | [] => none
        | _ :: _ => none

/-- Gregorian leap-year rule. -/
def isLeapYear (y : Nat) : Bool := y % 4 == 0 && (y % 100 != 0 || y % 400 == 0)

/-- Days in a month of a given year. -/
def daysInMonth (y mo : Nat) : Nat :=
  match mo with
  | 1 => 31
  | 2 => if isLeapYear y then 29 else 28
  | 3 => 31
  | 4 => 30
  | 5 => 31
  | 6 => 30
  | 7 => 31
  | 8 => 31
  | 9 => 30
  | 10 => 31
  | 11 => 30
  | 12 => 31
  | _ => 0

/-- Go time.Parse's range validation of the parsed fields. -/
def validTime (t : GoTime) : Bool :=
  1 ≤ t.mo && t.mo ≤ 12 && 1 ≤ t.d && t.d ≤ daysInMonth t.y t.mo &&
  t.h ≤ 23 && t.mi ≤ 59 && t.s ≤ 59

/-- Go time.Parse with one of the archiver's layouts: the whole input must be
consumed and the fields must be in range. -/
def goTimeParse (layout : List LTok) (s : String) : Option GoTime :=
  match runLayout layout ⟨0, 1, 1, 0, 0, 0, 0⟩ s.data with
  | some (acc, []) => if validTime acc then some acc else none
  | _ => none

/-- Zero-padded two-digit rendering. -/
def pad2N (n : Nat) : String := padDigits 2 (Nat.repr n)

/-- Zero-padded four-digit rendering. -/
def pad4N (n : Nat) : String := padDigits 4 (Nat.repr n)

/-- Go t.Format with layout 2006-01-02: the date component only. -/
def formatDateOnly (t : GoTime) : String :=
  pad4N t.y ++ "-" ++ pad2N t.mo ++ "-" ++ pad2N t.d

/-- Go t.Format(time.RFC3339): date, time and zone; a zero offset prints Z. -/
def formatRFC3339 (t : GoTime) : String :=
  formatDateOnly t ++ "T" ++ pad2N t.h ++ ":" ++ pad2N t.mi ++ ":" ++ pad2N t.s ++
  (if t.off = 0 then "Z"
   else (if t.off > 0 then "+" else "-") ++
     pad2N (t.off.natAbs / 60) ++ ":" ++ pad2N (t.off.natAbs % 60))

/-- Layout 2006-01-02T15:04:05. -/
def layoutSeconds : List LTok :=
  [LTok.year, LTok.lit '-', LTok.month, LTok.lit '-', LTok.day, LTok.lit 'T',
   LTok.hour, LTok.lit ':', LTok.minute, LTok.lit ':', LTok.second]

/-- Layout time.RFC3339 = 2006-01-02T15:04:05Z07:00. -/
def layoutRFC3339 : List LTok := layoutSeconds ++ [LTok.zoneISO]

/-- Layout 2006-01-02 15:04:05. -/
def layoutDateHMS : List LTok :=
  [LTok.year, LTok.lit '-', LTok.month, LTok.lit '-', LTok.day, LTok.lit ' ',
   LTok.hour, LTok.lit ':', LTok.minute, LTok.lit ':', LTok.second]

/-- Layout 2006-01-02. -/
def layoutDateOnly : List LTok :=
  [LTok.year, LTok.lit '-', LTok.month, LTok.lit '-', LTok.day]

/-- scanner.go lines 383-390: the ordered list of fallback DATE-OBS layouts. -/
def obsDateFormats : List (List LTok) :=
  [layoutSeconds,
   layoutSeconds ++ [LTok.fracFixed 3],
   layoutSeconds ++ [LTok.lit 'Z'],
   layoutSeconds ++ [LTok.fracFixed 3, LTok.lit 'Z'],
   layoutDateHMS,
   layoutDateOnly]

/-- scanner.go lines 392-399: try each fallback layout in order, returning the
date component of the first parse that succeeds. -/
def tryObsFormats : List (List LTok) → String → Option String
  | [], _ => none
  | fmt :: fmts, s =>
    match goTimeParse fmt s with
    | some t => some (formatDateOnly t)
    | none => tryObsFormats fmts s

/-- scanner.go lines 324-408: derive the observation date, in priority order
from the Julian-date header, then the date component of the stored UTC
timestamp, then the raw DATE-OBS header tried against the fallback layouts. -/
def deriveObservationDate (julianDate : Option Rat) (utcTime : Option String)
    (rawDate : String) : Option String :=
  match julianDate with
  | some jd => some (julianToDateString jd)
  | none =>
    match utcTime with
    | some u =>
      match goTimeParse layoutRFC3339 u with
      | some t => some (formatDateOnly t)
      | none => none
    | none =>
      if rawDate ≠ "" then tryObsFormats obsDateFormats rawDate else none

/-- A FITS header card value as fitsio hands it to the scanner: a string, a
numeric value (float64/float32/int/int64 all coerce to one exact rational),
or a boolean. -/
inductive HVal where
  | str (s : String)
  | flt (q : Rat)
  | intv (n : Int)
  | boolean (b : Bool)
deriving Repr, DecidableEq

/-- A FITS primary header: ordered list of (keyword, value) cards. -/
abbrev Header : Type := List (String × HVal)

/-- fitsio header.Get: the first card with the given keyword. -/
def headerGet (h : Header) (key : String) : Option HVal :=
  (List.find? (fun kv => kv.1 == key) h).map Prod.snd

/-- scanner.go getStringHeader: probe the keys in order; the first card whose
value is a non-empty string wins and is returned trimmed. -/
def getStringHeader (h : Header) : List String → String
  | [] => ""
  | k :: ks =>
    match headerGet h k with
    | some (HVal.str v) => if v ≠ "" then goTrim v else getStringHeader h ks
    | _ => getStringHeader h ks

/-- scanner.go getFloatHeader: probe the keys in order; the first card with a
numeric value wins. -/
def getFloatHeader (h : Header) : List String → Option Rat
  | [] => none
  | k :: ks =>
    match headerGet h k with
    | some (HVal.flt q) => some q
    | some (HVal.intv n) => some (n : Rat)
    | _ => getFloatHeader h ks

/-- scanner.go getIntHeader: probe the keys in order; the first card with a
numeric value wins, floats truncated toward zero as Go int(v). -/
def getIntHeader (h : Header) : List String → Option Int
  | [] => none
  | k :: ks =>
    match headerGet h k with
    | some (HVal.intv n) => some n
    | some (HVal.flt q) => some (ratTrunc q)
    | _ => getIntHeader h ks

/-- models.go FITSFile: one candidate/stored record. SQLite REAL fields are
exact rationals, nullable columns are Options. -/
structure FITSFile where
  relativePath : String
  hash : String
  fileModTime : Int
  object : String
  ra : Option Rat
  dec : Option Rat
  telescope : String
  focalLength : Option Rat
  exposure : Rat
  utcTime : Option String
  localTime : Option String
  julianDate : Option Rat
  observationDate : Option String
  software : String
  camera : String
  gain : Option Rat
  offset : Option Int
  filter : String
  imageType : String
deriving Repr, DecidableEq

/-- scanner.go Scanner.extractMetadata lines 277-433: build the candidate
record from the primary header, the resolved relative path, the content hash
and the file-modification timestamp. -/
def extractMetadata (header : Header) (relPath hash : String) (modTime : Int) :
    FITSFile :=
  let object := getStringHeader header ["OBJECT", "TARGET", "OBJNAME"]
  let ra := getFloatHeader header ["RA", "OBJCTRA", "RA_OBJ"]
  let dec := getFloatHeader header ["DEC", "OBJCTDEC", "DEC_OBJ"]
  let telescope := getStringHeader header ["TELESCOP", "TELESCOPE", "SCOPE"]
  let focalLength := getFloatHeader header ["FOCALLEN", "FOCAL", "FOCAL_LENGTH"]
  let exposure :=
    match getFloatHeader header ["EXPTIME", "EXPOSURE", "EXPOS"] with
    | some e => e
    | none => 0
  let rawDate := getStringHeader header ["DATE-OBS", "DATE_OBS", "DATEOBS"]
  let utcTime :=
    if rawDate ≠ "" then
      match goTimeParse layoutRFC3339 rawDate with
      | some t => some (formatRFC3339 t)
      | none =>
        match goTimeParse layoutSeconds rawDate with
        | some t => some (formatRFC3339 t)
        | none => none
    else none
  let rawLocal := getStringHeader header ["DATE-LOC", "DATE_LOCAL", "LOCTIME"]
  let localTime :=
    if rawLocal ≠ "" then (goTimeParse layoutRFC3339 rawLocal).map formatRFC3339
    else none
  let julianDate := getFloatHeader header ["MJD-OBS", "JD", "JULIAN", "JD-OBS"]
  let observationDate := deriveObservationDate julianDate utcTime rawDate
  let software := getStringHeader header ["SWCREATE", "SOFTWARE", "PROGRAM", "CREATOR"]
  let camera := getStringHeader header ["INSTRUME", "CAMERA", "DETECTOR"]
  let gain := getFloatHeader header ["GAIN", "EGAIN"]
  let offset := getIntHeader header ["OFFSET", "PEDESTAL"]
  let filter := getStringHeader header ["FILTER", "FILT", "FILTNAME"]
  let imageType0 := getStringHeader header ["IMAGETYP", "IMAGTYP", "FRAME"]
  let imageType := if imageType0 = "" then "LIGHT" else imageType0
  { relativePath := relPath, hash := hash, fileModTime := modTime,
    object := object, ra := ra, dec := dec, telescope := telescope,
    focalLength := focalLength, exposure := exposure, utcTime := utcTime,
    localTime := localTime, julianDate := julianDate,
    observationDate := observationDate, software := software, camera := camera,
    gain := gain, offset := offset, filter := filter, imageType := imageType }

/-- Render path components joined with forward slashes (Go strings.Join /
filepath.ToSlash). -/
def joinSlash : List String → String
  | [] => ""
  | [x] => x
  | x :: xs => x ++ "/" ++ joinSlash xs

/-- Is an Except a success? -/
def exceptOk {ε α : Type} : Except ε α → Bool
  | Except.ok _ => true
  | Except.error _ => false

/-- Strip the longest common leading components of two paths. -/
def commonStrip : List String → List String → List String × List String
  | b :: bs, t :: ts => if b == t then commonStrip bs ts else (b :: bs, t :: ts)
  | bs, ts => (bs, ts)

/-- Go filepath.Rel on two absolute cleaned paths: after removing the common
leading components, one .. per remaining base component, then the remaining
target components. -/
def filepathRel (base targ : List String) : String :=
  match commonStrip base targ with
  | ([], []) => "."
  | (bRest, tRest) => joinSlash (List.replicate bRest.length ".." ++ tRest)

/-- database.go Database.GetRelativePath lines 470-499: try the configured
base directories in order and accept the first whose relative path does not
begin with ..; otherwise report that the file is under no base directory. -/
def getRelativePath : List (List String) → List String → Except String String
  | [], p =>
    Except.error ("file /" ++ joinSlash p ++
      " is not within any configured base directory")
  | b :: bs, p =>
    let rel := filepathRel b p
    if goStarts rel ".." then getRelativePath bs p else Except.ok rel

/-- One row of the fits_files table: the record plus its row_mod_time, which
is refreshed on every write. -/
structure StoredRow where
  fits : FITSFile
  rowModTime : Int
deriving Repr, DecidableEq

/-- database.go Database.GetFileByPath: lookup by the unique relative path. -/
def getFileByPath (db : List StoredRow) (relPath : String) : Option StoredRow :=
  db.find? (fun r => r.fits.relativePath == relPath)

/-- database.go Database.InsertOrUpdateFile lines 188-229: atomic upsert keyed
on relative_path, writing every field and a refreshed row_mod_time. -/
def insertOrUpdateFile (db : List StoredRow) (now : Int) (f : FITSFile) :
    List StoredRow :=
  if (getFileByPath db f.relativePath).isSome then
    db.map (fun r =>
      if r.fits.relativePath == f.relativePath then
        { fits := f, rowModTime := now } else r)
  else db ++ [{ fits := f, rowModTime := now }]

/-- scanner.go lines 181-194: does the index already hold a row for this
relative path with the same file-modification timestamp? -/
def storedMatch (db : List StoredRow) (relPath : String) (modTime : Int) : Bool :=
  match getFileByPath db relPath with
  | some ex => ex.fits.fileModTime == modTime
  | none => false

/-- The per-file outcome of processFile: which counter is bumped and whether
an error message is appended. -/
inductive FileOutcome where
  | errRelPath (msg : String)
  | skippedUnchanged
  | skippedNotLight
  | skippedMissing (field : String)
  | added
  | updated
deriving Repr, DecidableEq

/-- Counter deltas (added, updated, skipped) of one outcome; the scanned
counter is bumped for every processed file. -/
def outcomeCounts : FileOutcome → Nat × Nat × Nat
  | FileOutcome.added => (1, 0, 0)
  | FileOutcome.updated => (0, 1, 0)
  | FileOutcome.skippedUnchanged => (0, 0, 1)
  | FileOutcome.skippedNotLight => (0, 0, 1)
  | FileOutcome.skippedMissing _ => (0, 0, 1)
  | FileOutcome.errRelPath _ => (0, 0, 0)

/-- Whether the outcome appends a message to the scan's error list. -/
def outcomeAddsError : FileOutcome → Bool
  | FileOutcome.errRelPath _ => true
  | FileOutcome.skippedMissing _ => true
  | _ => false

/-- scanner.go Scanner.processFile lines 180-248, after a successful relative
path resolution: skip unchanged files unless force, extract the metadata,
reject non-LIGHT frames and incomplete records, upsert, then classify
add/update by re-reading the just-written row. -/
def processFileWithRel (force : Bool) (db : List StoredRow) (now : Int)
    (relPath : String) (modTime : Int) (hash : String) (header : Header) :
    List StoredRow × FileOutcome :=
  if !force && storedMatch db relPath modTime then
    (db, FileOutcome.skippedUnchanged)
  else
    let f := extractMetadata header relPath hash modTime
    if f.imageType ≠ "LIGHT" then (db, FileOutcome.skippedNotLight)
    else if f.object = "" then (db, FileOutcome.skippedMissing "OBJECT")
    else if f.telescope = "" then (db, FileOutcome.skippedMissing "TELESCOPE")
    else if f.filter = "" then (db, FileOutcome.skippedMissing "FILTER")
    else if f.exposure = 0 then (db, FileOutcome.skippedMissing "EXPOSURE")
    else
      let db2 := insertOrUpdateFile db now f
      match getFileByPath db2 relPath with
      | some ex =>
        if ex.fits.fileModTime ≠ modTime then (db2, FileOutcome.updated)
        else (db2, FileOutcome.added)
      | none => (db2, FileOutcome.added)

/-- scanner.go Scanner.processFile lines 163-248: resolve the relative path
(soft error when the file is under no base directory), then run the rest of
the per-file pipeline. Returns the new table and the outcome. -/
def processFile (baseDirs : List (List String)) (force : Bool)
    (db : List StoredRow) (now : Int) (path : List String) (modTime : Int)
    (hash : String) (header : Header) : List StoredRow × FileOutcome :=
  match getRelativePath baseDirs path with
  | Except.error e => (db, FileOutcome.errRelPath e)
  | Except.ok relPath => processFileWithRel force db now relPath modTime hash header

/-- One candidate file fed to the worker pool: its absolute path, stat mod
time, content hash and primary header. -/
structure Candidate where
  path : List String
  modTime : Int
  hash : String
  header : Header

/-- Process a list of candidate files in sequence, collecting outcomes. Row
writes are serialized through one mutex in the source, and the per-file
counters are atomic, so the aggregate behaviour of a pass is the fold of
processFile over the discovered files. -/
def scanFiles (baseDirs : List (List String)) (force : Bool) (now : Int)
    (db : List StoredRow) : List Candidate → List StoredRow × List FileOutcome
  | [] => (db, [])
  | c :: cs =>
    let r := processFile baseDirs force db now c.path c.modTime c.hash c.header
    let rest := scanFiles baseDirs force now r.1 cs
    (rest.1, r.2 :: rest.2)

/-- The independently optional, conjunctive filters of QueryFiles
(database.go lines 274-317). String filters are applied only when present and
non-empty, numeric filters whenever present, matching the Go type assertions
on the filters map. -/
structure QueryFilters where
  target : Option String := none
  filterName : Option String := none
  telescope : Option String := none
  camera : Option String := none
  software : Option String := none
  dateFrom : Option String := none
  dateTo : Option String := none
  minExposure : Option Rat := none
  maxExposure : Option Rat := none
  gainMin : Option Rat := none
  gainMax : Option Rat := none

/-- SQLite LIKE with a %sub% pattern: case-insensitive (ASCII) substring
containment. -/
def likeContains (s sub : String) : Bool :=
  listContainsSeq (goToUpper s).data (goToUpper sub).data

/-- Does a stored record satisfy the conjunction of the active filters?
NULL columns compare to nothing, so a NULL utc_time or gain fails any range
filter on it, as in SQLite. -/
def rowMatches (flt : QueryFilters) (r : FITSFile) : Bool :=
  (match flt.target with
   | some t => if t ≠ "" then likeContains r.object t else true
   | none => true) &&
  (match flt.filterName with
   | some t => if t ≠ "" then r.filter == t else true
   | none => true) &&
  (match flt.telescope with
   | some t => if t ≠ "" then likeContains r.telescope t else true
   | none => true) &&
  (match flt.camera with
   | some t => if t ≠ "" then likeContains r.camera t else true
   | none => true) &&
  (match flt.software with
   | some t => if t ≠ "" then likeContains r.software t else true
   | none => true) &&
  (match flt.dateFrom with
   | some t =>
     if t ≠ "" then (match r.utcTime with | some u => decide (t ≤ u) | none => false)
     else true
   | none => true) &&
  (match flt.dateTo with
   | some t =>
     if t ≠ "" then (match r.utcTime with | some u => decide (u ≤ t) | none => false)
     else true
   | none => true) &&
  (match flt.minExposure with
   | some m => decide (m ≤ r.exposure)
   | none => true) &&
  (match flt.maxExposure with
   | some m => decide (r.exposure ≤ m)
   | none => true) &&
  (match flt.gainMin with
   | some m => (match r.gain with | some g => decide (m ≤ g) | none => false)
   | none => true) &&
  (match flt.gainMax with
   | some m => (match r.gain with | some g => decide (g ≤ m) | none => false)
   | none => true)

/-- Comparison of nullable utc_time keys: NULL is the smallest value, as in
SQLite. -/
def utcLE (a b : Option String) : Prop :=
  match a, b with
  | none, _ => True
  | some _, none => False
  | some x, some y => x ≤ y

instance : DecidableRel utcLE := fun a b =>
  match a, b with
  | none, _ => Decidable.isTrue trivial
  | some _, none => Decidable.isFalse (fun h => h)
  | some x, some y => inferInstanceAs (Decidable (x ≤ y))

/-- ORDER BY utc_time DESC: a row precedes another when its key is at least as
large, placing NULL keys last. -/
def utcDescRel (a b : FITSFile) : Prop := utcLE b.utcTime a.utcTime

instance : DecidableRel utcDescRel := fun a b =>
  inferInstanceAs (Decidable (utcLE b.utcTime a.utcTime))

instance : IsTotal FITSFile utcDescRel where
  total a b := by
    show utcLE b.utcTime a.utcTime ∨ utcLE a.utcTime b.utcTime
    rcases b.utcTime with _ | x
    · exact Or.inl trivial
    · rcases a.utcTime with _ | y
      · exact Or.inr trivial
      · rcases le_total x y with h | h
        · exact Or.inl h
        · exact Or.inr h

instance : IsTrans FITSFile utcDescRel where
  trans a b c hab hbc := by
    have hba : utcLE b.utcTime a.utcTime := hab
    have hcb : utcLE c.utcTime b.utcTime := hbc
    show utcLE c.utcTime a.utcTime
    revert hba hcb
    rcases c.utcTime with _ | x <;> rcases b.utcTime with _ | y <;>
      rcases a.utcTime with _ | z <;> intro hba hcb
    all_goals first
      | exact trivial
      | exact False.elim hcb
      | exact False.elim hba
      | exact le_trans (α := String) hcb hba

/-- database.go Database.QueryFiles lines 262-350: filter, order by utc_time
descending, then apply OFFSET and LIMIT (a negative SQLite LIMIT means no
limit, a negative OFFSET skips nothing). -/
def queryFiles (db : List StoredRow) (flt : QueryFilters) (limit offset : Int) :
    List FITSFile :=
  let matched := (db.map (fun r => r.fits)).filter (rowMatches flt)
  let sorted := List.insertionSort utcDescRel matched
  let paged := sorted.drop offset.toNat
  if limit < 0 then paged else paged.take limit.toNat

/-- mcp-server.go lines 204-215: the query_fits_archive handler's effective
limit: default 100; a requested JSON number is truncated to int and capped at
1000. -/
def effectiveLimit (req : Option Rat) : Int :=
  match req with
  | none => 100
  | some l => if ratTrunc l > 1000 then 1000 else ratTrunc l

/-- mcp-server.go lines 204-216: the handler's effective offset: default 0. -/
def effectiveOffset (req : Option Rat) : Int :=
  match req with
  | none => 0
  | some o => ratTrunc o

/-- The query_fits_archive tool: QueryFiles with the clamped limit/offset. -/
def queryFitsArchive (db : List StoredRow) (flt : QueryFilters)
    (reqLimit reqOffset : Option Rat) : List FITSFile :=
  queryFiles db flt (effectiveLimit reqLimit) (effectiveOffset reqOffset)

/-- The mcp-server.go process-wide scan coordination state: the scanningNow
flag guarded by scanMutex, whether the startup scan goroutine is running or
already finished, and how many handler-triggered scans are in flight. -/
structure ServerState where
  scanningNow : Bool
  startupRunning : Bool
  startupDone : Bool
  rescans : Nat
deriving Repr, DecidableEq

/-- The scan-coordination events of mcp-server.go. -/
inductive ScanEvent where
  | startupBegin
  | startupEnd
  | rescanRequest
  | rescanEnd
deriving Repr, DecidableEq

/-- The initial state at process start. -/
def initState : ServerState :=
  { scanningNow := false, startupRunning := false, startupDone := false,
    rescans := 0 }

/-- One atomic step of the scan coordination, returning the next state and,
for a rescan_fits_directory request, whether the scan was started (true) or
rejected as already running (false). The startup goroutine (runMCPServer
lines 95-111) runs the scan without touching scanningNow; the
rescan_fits_directory handler (lines 302-352) checks and sets scanningNow
under scanMutex and clears it when its background scan finishes. -/
def stepEvent (s : ServerState) : ScanEvent → Option (ServerState × Option Bool)
  | ScanEvent.startupBegin =>
    if !s.startupRunning && !s.startupDone then
      some ({ s with startupRunning := true }, none)
    else none
  | ScanEvent.startupEnd =>
    if s.startupRunning then
      some ({ s with startupRunning := false, startupDone := true }, none)
    else none
  | ScanEvent.rescanRequest =>
    if s.scanningNow then some (s, some false)
    else some ({ s with scanningNow := true, rescans := s.rescans + 1 }, some true)
  | ScanEvent.rescanEnd =>
    if s.rescans > 0 then
      some ({ s with scanningNow := false, rescans := s.rescans - 1 }, none)
    else none

/-- How many scan passes are executing concurrently in a state. -/
def scansInFlight (s : ServerState) : Nat :=
  s.rescans + (if s.startupRunning then 1 else 0)

/-- Reachability of a coordination state from process start. -/
inductive Reachable : ServerState → Prop where
  | init : Reachable initState
  | step {s s2 : ServerState} {e : ScanEvent} {r : Option Bool} :
      Reachable s → stepEvent s e = some (s2, r) → Reachable s2

/-! ## Theorems -/

/-- Batteries' Rat.floor is the floor of the FloorRing instance on the
rationals. -/
theorem rat_floor_eq (q : Rat) : q.floor = Int.floor q := rfl

/-- The validation outcome of the read-only gate, as a disjunction. -/
theorem validate_isSome_iff (q : String) :
    (validateReadOnlyQuery q).isSome = true ↔
      (goStarts (goToUpper (goTrim q)) "SELECT" = false ∨
       ∃ kw ∈ forbiddenKeywords, goContains (goToUpper (goTrim q)) kw = true) := by
  simp only [validateReadOnlyQuery]
  cases hs : goStarts (goToUpper (goTrim q)) "SELECT" with
  | false => simp
  | true =>
    rw [if_neg (by simp)]
    cases hfind : List.find? (fun kw => goContains (goToUpper (goTrim q)) kw)
        forbiddenKeywords with
    | none =>
      refine iff_of_false (by simp) ?_
      rintro (h | ⟨kw, hmem, hkw⟩)
      · exact absurd h (by simp)
      · have := List.find?_eq_none.mp hfind kw hmem
        simp [hkw] at this
    | some kw =>
      refine iff_of_true (by simp) ?_
      exact Or.inr ⟨kw, List.mem_of_find?_eq_some hfind,
        by simpa using List.find?_some hfind⟩

/-- A successful path resolution reduces processFile to its per-file body. -/
theorem processFile_ok {baseDirs : List (List String)} {path : List String}
    {relPath : String} (force : Bool) (db : List StoredRow) (now modTime : Int)
    (hash : String) (header : Header)
    (hrel : getRelativePath baseDirs path = Except.ok relPath) :
    processFile baseDirs force db now path modTime hash header =
      processFileWithRel force db now relPath modTime hash header := by
  simp only [processFile, hrel]

/-- C1 counterexample: a candidate whose EXPTIME header is the negative float
-1 has every required string field present, so processFile hands it to
InsertOrUpdateFile and it is persisted with exposure not greater than zero,
refuting the claim that every persisted record has exposure strictly greater
than zero (the code only rejects exposure equal to zero). -/
theorem C1_counterexample :
    (processFile [["obs", "lights"]] false [] 0 ["obs", "lights", "neg.fits"] 5
      "h1" [("OBJECT", HVal.str "NGC7000"), ("TELESCOP", HVal.str "FSQ106"),
            ("FILTER", HVal.str "Ha"), ("EXPTIME", HVal.flt (-1))]).2 =
      FileOutcome.added ∧
    ((processFile [["obs", "lights"]] false [] 0 ["obs", "lights", "neg.fits"] 5
      "h1" [("OBJECT", HVal.str "NGC7000"), ("TELESCOP", HVal.str "FSQ106"),
            ("FILTER", HVal.str "Ha"), ("EXPTIME", HVal.flt (-1))]).1.all
      (fun row => decide (0 < row.fits.exposure))) = false := by
  decide

/-- C1 (amended): whenever processFile reaches the candidate record, a record
with an empty object, telescope or filter, or with exposure equal to zero
(rather than not greater than zero), is never handed to InsertOrUpdateFile
and is counted as skipped; conversely a record that is inserted or updated
has all three strings non-empty and a non-zero exposure. -/
theorem C1_required_fields_guard
    (baseDirs : List (List String)) (force : Bool) (db : List StoredRow)
    (now : Int) (path : List String) (modTime : Int) (hash : String)
    (header : Header) (relPath : String)
    (hrel : getRelativePath baseDirs path = Except.ok relPath) :
    (let f := extractMetadata header relPath hash modTime
     let r := processFile baseDirs force db now path modTime hash header
     ((f.object = "" ∨ f.telescope = "" ∨ f.filter = "" ∨ f.exposure = 0) →
       r.1 = db ∧ outcomeCounts r.2 = (0, 0, 1) ∧
       (r.2 = FileOutcome.skippedUnchanged ∨ r.2 = FileOutcome.skippedNotLight ∨
        ∃ fld, r.2 = FileOutcome.skippedMissing fld)) ∧
     ((r.2 = FileOutcome.added ∨ r.2 = FileOutcome.updated) →
       f.object ≠ "" ∧ f.telescope ≠ "" ∧ f.filter ≠ "" ∧ f.exposure ≠ 0 ∧
       r.1 = insertOrUpdateFile db now f)) := by
  rw [processFile_ok force db now modTime hash header hrel]
  set f := extractMetadata header relPath hash modTime with hf
  unfold processFileWithRel
  rw [← hf]
  by_cases hskip : (!force && storedMatch db relPath modTime) = true
  · rw [if_pos hskip]
    constructor
    · intro _; exact ⟨rfl, rfl, Or.inl rfl⟩
    · rintro (h | h) <;> cases h
  · rw [if_neg hskip]
    by_cases himg : f.imageType ≠ "LIGHT"
    · rw [if_pos himg]
      constructor
      · intro _; exact ⟨rfl, rfl, Or.inr (Or.inl rfl)⟩
      · rintro (h | h) <;> cases h
    · rw [if_neg himg]
      by_cases hobj : f.object = ""
      · rw [if_pos hobj]
        constructor
        · intro _; exact ⟨rfl, rfl, Or.inr (Or.inr ⟨"OBJECT", rfl⟩)⟩
        · rintro (h | h) <;> cases h
      · rw [if_neg hobj]
        by_cases htel : f.telescope = ""
        · rw [if_pos htel]
          constructor
          · intro _; exact ⟨rfl, rfl, Or.inr (Or.inr ⟨"TELESCOPE", rfl⟩)⟩
          · rintro (h | h) <;> cases h
        · rw [if_neg htel]
          by_cases hfil : f.filter = ""
          · rw [if_pos hfil]
            constructor
            · intro _; exact ⟨rfl, rfl, Or.inr (Or.inr ⟨"FILTER", rfl⟩)⟩
            · rintro (h | h) <;> cases h
          · rw [if_neg hfil]
            by_cases hexp : f.exposure = 0
            · rw [if_pos hexp]
              constructor
              · intro _; exact ⟨rfl, rfl, Or.inr (Or.inr ⟨"EXPOSURE", rfl⟩)⟩
              · rintro (h | h) <;> cases h
            · rw [if_neg hexp]
              constructor
              · rintro (h | h | h | h)
                · exact absurd h hobj
                · exact absurd h htel
                · exact absurd h hfil
                · exact absurd h hexp
              · intro _
                refine ⟨hobj, htel, hfil, hexp, ?_⟩
                cases hm : getFileByPath (insertOrUpdateFile db now f) relPath with
                | none => simp only [hm]
                | some ex =>
                  by_cases hmt : ex.fits.fileModTime ≠ modTime
                  · simp only [hm, if_pos hmt]
                  · simp only [hm, if_neg hmt]

/-- Witness for C1: a candidate with an empty FILTER header is skipped with
the table unchanged. -/
theorem C1_witness :
    (let r := processFile [["pool"]] false [] 0 ["pool", "nofilter.fits"] 7 "h9"
        [("OBJECT", HVal.str "M81"), ("TELESCOP", HVal.str "RASA8"),
         ("EXPTIME", HVal.flt 30)]
     r.1 = ([] : List StoredRow) ∧ outcomeCounts r.2 = (0, 0, 1) ∧
     (r.2 = FileOutcome.skippedUnchanged ∨ r.2 = FileOutcome.skippedNotLight ∨
      ∃ fld, r.2 = FileOutcome.skippedMissing fld)) :=
  (C1_required_fields_guard [["pool"]] false [] 0 ["pool", "nofilter.fits"] 7
    "h9" [("OBJECT", HVal.str "M81"), ("TELESCOP", HVal.str "RASA8"),
          ("EXPTIME", HVal.flt 30)] "nofilter.fits" (by rfl)).1
    (Or.inr (Or.inr (Or.inl (by decide))))

/-- C2: a scanned file whose extracted image type is not LIGHT is never
handed to InsertOrUpdateFile: the table is unchanged and the outcome is a
skip (of the unchanged kind or the not-a-light-frame kind), counted in the
skipped counter and appending no error. -/
theorem C2_non_light_frames_never_persisted
    (baseDirs : List (List String)) (force : Bool) (db : List StoredRow)
    (now : Int) (path : List String) (modTime : Int) (hash : String)
    (header : Header) (relPath : String)
    (hrel : getRelativePath baseDirs path = Except.ok relPath)
    (himg : (extractMetadata header relPath hash modTime).imageType ≠ "LIGHT") :
    (processFile baseDirs force db now path modTime hash header).1 = db ∧
    ((processFile baseDirs force db now path modTime hash header).2 =
        FileOutcome.skippedUnchanged ∨
     (processFile baseDirs force db now path modTime hash header).2 =
        FileOutcome.skippedNotLight) ∧
    outcomeCounts (processFile baseDirs force db now path modTime hash header).2 =
      (0, 0, 1) ∧
    outcomeAddsError (processFile baseDirs force db now path modTime hash header).2 =
      false := by
  rw [processFile_ok force db now modTime hash header hrel]
  unfold processFileWithRel
  by_cases hskip : (!force && storedMatch db relPath modTime) = true
  · rw [if_pos hskip]
    exact ⟨rfl, Or.inl rfl, rfl, rfl⟩
  · rw [if_neg hskip]
    simp [himg, outcomeCounts, outcomeAddsError]

/-- Witness for C2: a complete DARK calibration frame is skipped, not stored. -/
theorem C2_witness :
    (processFile [["obs2"]] false [] 0 ["obs2", "dark.fits"] 5 "h2"
      [("OBJECT", HVal.str "M1"), ("TELESCOP", HVal.str "T1"),
       ("FILTER", HVal.str "L"), ("EXPTIME", HVal.flt 60),
       ("IMAGETYP", HVal.str "DARK")]).1 = [] :=
  (C2_non_light_frames_never_persisted [["obs2"]] false [] 0
    ["obs2", "dark.fits"] 5 "h2"
    [("OBJECT", HVal.str "M1"), ("TELESCOP", HVal.str "T1"),
     ("FILTER", HVal.str "L"), ("EXPTIME", HVal.flt 60),
     ("IMAGETYP", HVal.str "DARK")] "dark.fits" (by rfl) (by decide)).1

/-- Without force, a file whose stored row carries the same modification
timestamp is skipped with no write. -/
theorem processFile_unchanged {baseDirs : List (List String)}
    {path : List String} {relPath : String} (db : List StoredRow)
    (now modTime : Int) (hash : String) (header : Header) (ex : StoredRow)
    (hrel : getRelativePath baseDirs path = Except.ok relPath)
    (hex : getFileByPath db relPath = some ex)
    (heq : ex.fits.fileModTime = modTime) :
    processFile baseDirs false db now path modTime hash header =
      (db, FileOutcome.skippedUnchanged) := by
  rw [processFile_ok false db now modTime hash header hrel]
  unfold processFileWithRel
  rw [if_pos (show (!false && storedMatch db relPath modTime) = true by
    simp [storedMatch, hex, heq])]

/-- C3: without force, a file whose relative path has a row with the same
stored file_mod_time produces no database write and only a skipped outcome;
consequently rescanning a whole set of unmodified files leaves the table
unchanged with every file skipped (zero added, zero updated). -/
theorem C3_unchanged_files_skipped_idempotent :
    (∀ (baseDirs : List (List String)) (db : List StoredRow) (now : Int)
       (path : List String) (modTime : Int) (hash : String) (header : Header)
       (relPath : String) (ex : StoredRow),
      getRelativePath baseDirs path = Except.ok relPath →
      getFileByPath db relPath = some ex →
      ex.fits.fileModTime = modTime →
      processFile baseDirs false db now path modTime hash header =
        (db, FileOutcome.skippedUnchanged)) ∧
    (∀ (baseDirs : List (List String)) (now : Int) (db : List StoredRow)
       (cs : List Candidate),
      (∀ c ∈ cs, ∃ relPath ex,
        getRelativePath baseDirs c.path = Except.ok relPath ∧
        getFileByPath db relPath = some ex ∧
        ex.fits.fileModTime = c.modTime) →
      scanFiles baseDirs false now db cs =
        (db, List.replicate cs.length FileOutcome.skippedUnchanged)) := by
  constructor
  · intro baseDirs db now path modTime hash header relPath ex hrel hex heq
    exact processFile_unchanged db now modTime hash header ex hrel hex heq
  · intro baseDirs now db cs hall
    induction cs with
    | nil => rfl
    | cons c cs ih =>
      obtain ⟨relPath, ex, hrel, hex, heq⟩ := hall c (List.mem_cons_self c cs)
      have h1 := processFile_unchanged db now c.modTime c.hash c.header ex
        hrel hex heq
      have ih2 := ih (fun c2 hc2 => hall c2 (List.mem_cons_of_mem c hc2))
      simp only [scanFiles, h1, ih2, List.replicate_succ, List.length_cons]

/-- Witness for C3: rescanning the single-file set that produced the current
table, with the same modification timestamp, is a pure skip. -/
theorem C3_witness :
    (let hdr : Header := [("OBJECT", HVal.str "M33"), ("TELESCOP", HVal.str "APO"),
        ("FILTER", HVal.str "G"), ("EXPTIME", HVal.flt 90)]
     let db := (processFile [["vault"]] false [] 0 ["vault", "m33.fits"] 11
        "hv" hdr).1
     scanFiles [["vault"]] false 50 db
        [{ path := ["vault", "m33.fits"], modTime := 11, hash := "hv",
           header := hdr }] =
       (db, [FileOutcome.skippedUnchanged])) := by
  refine (C3_unchanged_files_skipped_idempotent.2 [["vault"]] 50 _ _ ?_)
  intro c hc
  obtain rfl := List.mem_singleton.mp hc
  exact ⟨"m33.fits",
    { fits := extractMetadata
        [("OBJECT", HVal.str "M33"), ("TELESCOP", HVal.str "APO"),
         ("FILTER", HVal.str "G"), ("EXPTIME", HVal.flt 90)]
        "m33.fits" "hv" 11, rowModTime := 0 }, by rfl, by rfl, by rfl⟩

/-- C4: for a file that already has a row in the index, changing the file's
modification timestamp and rescanning without force counts the file as ADDED,
not updated: after the upsert, processFile re-reads the just-written row,
whose file_mod_time now equals the file's, so the comparison that would
classify the write as an update can never succeed. -/
theorem C4_modified_file_counted_as_added :
    (let hdr : Header := [("OBJECT", HVal.str "M42"), ("TELESCOP", HVal.str "EdgeHD"),
        ("FILTER", HVal.str "OIII"), ("EXPTIME", HVal.flt 300)]
     let db := (processFile [["arc"]] false [] 0 ["arc", "m42.fits"] 10 "old" hdr).1
     (getFileByPath db "m42.fits").isSome = true ∧
     storedMatch db "m42.fits" 20 = false ∧
     (processFile [["arc"]] false db 99 ["arc", "m42.fits"] 20 "new" hdr).2 =
       FileOutcome.added ∧
     (processFile [["arc"]] false db 99 ["arc", "m42.fits"] 20 "new" hdr).2 ≠
       FileOutcome.updated) := by
  decide

/-- C10: a header with none of the image-type keys IMAGETYP, IMAGTYP, FRAME
yields the default image type LIGHT, and such a candidate is persisted
(inserted or updated) whenever its required fields are present and the
unchanged-skip check does not fire. -/
theorem C10_missing_image_type_defaults_to_light
    (baseDirs : List (List String)) (force : Bool) (db : List StoredRow)
    (now : Int) (path : List String) (modTime : Int) (hash : String)
    (header : Header) (relPath : String)
    (hrel : getRelativePath baseDirs path = Except.ok relPath)
    (h1 : headerGet header "IMAGETYP" = none)
    (h2 : headerGet header "IMAGTYP" = none)
    (h3 : headerGet header "FRAME" = none) :
    (let f := extractMetadata header relPath hash modTime
     f.imageType = "LIGHT" ∧
     ((!force && storedMatch db relPath modTime) = false →
      f.object ≠ "" → f.telescope ≠ "" → f.filter ≠ "" → f.exposure ≠ 0 →
      (processFile baseDirs force db now path modTime hash header).1 =
        insertOrUpdateFile db now f ∧
      ((processFile baseDirs force db now path modTime hash header).2 =
          FileOutcome.added ∨
       (processFile baseDirs force db now path modTime hash header).2 =
          FileOutcome.updated))) := by
  have hstr : getStringHeader header ["IMAGETYP", "IMAGTYP", "FRAME"] = "" := by
    simp [getStringHeader, h1, h2, h3]
  set f := extractMetadata header relPath hash modTime with hf
  have hlight : f.imageType = "LIGHT" := by
    rw [hf]
    simp only [extractMetadata]
    rw [hstr]
    simp
  refine ⟨hlight, ?_⟩
  intro hskip hobj htel hfil hexp
  rw [processFile_ok force db now modTime hash header hrel]
  unfold processFileWithRel
  rw [← hf, if_neg (by simp [hskip]), if_neg (by simp [hlight]), if_neg hobj,
    if_neg htel, if_neg hfil, if_neg hexp]
  cases hm : getFileByPath (insertOrUpdateFile db now f) relPath with
  | none => simp [hm]
  | some ex =>
    by_cases hmt : ex.fits.fileModTime ≠ modTime
    · simp [hm, hmt]
    · simp [hm, hmt]

/-- Witness for C10: a concrete header with no image-type key extracts as a
LIGHT frame. -/
theorem C10_witness :
    (extractMetadata [("OBJECT", HVal.str "IC434"), ("TELESCOP", HVal.str "N8"),
        ("FILTER", HVal.str "SII"), ("EXPTIME", HVal.flt 600)]
      "horse.fits" "hw" 3).imageType = "LIGHT" :=
  (C10_missing_image_type_defaults_to_light [["w10"]] false [] 0
    ["w10", "horse.fits"] 3 "hw"
    [("OBJECT", HVal.str "IC434"), ("TELESCOP", HVal.str "N8"),
     ("FILTER", HVal.str "SII"), ("EXPTIME", HVal.flt 600)]
    "horse.fits" (by rfl) (by decide) (by decide) (by decide)).1

/-- C5: ExecuteReadOnlyQuery(text) returns a validation error without
executing anything against the store if and only if the trimmed, upper-cased
text does not begin with SELECT or contains a denylisted keyword; in
particular DELETE FROM fits_files is rejected before reaching storage, and
SELECT * FROM fits_files is executed and returns the store's rows. -/
theorem C5_executeReadOnlyQuery_validation_gate :
    (∀ q : String, (validateReadOnlyQuery q).isSome = true ↔
      (goStarts (goToUpper (goTrim q)) "SELECT" = false ∨
       ∃ kw ∈ forbiddenKeywords, goContains (goToUpper (goTrim q)) kw = true)) ∧
    (∀ (ρ : Type) (exec : String → List ρ) (q e : String),
      validateReadOnlyQuery q = some e →
      executeReadOnlyQuery exec q = Except.error e) ∧
    (∀ (ρ : Type) (exec : String → List ρ),
      executeReadOnlyQuery exec "DELETE FROM fits_files" =
        Except.error "only SELECT queries are allowed") ∧
    (∀ (ρ : Type) (exec : String → List ρ),
      executeReadOnlyQuery exec "SELECT * FROM fits_files" =
        Except.ok (exec "SELECT * FROM fits_files")) := by
  refine ⟨validate_isSome_iff, ?_, ?_, ?_⟩
  · intro ρ exec q e h
    unfold executeReadOnlyQuery
    rw [h]
  · intro ρ exec
    unfold executeReadOnlyQuery
    rw [show validateReadOnlyQuery "DELETE FROM fits_files" =
      some "only SELECT queries are allowed" from by decide]
  · intro ρ exec
    unfold executeReadOnlyQuery
    rw [show validateReadOnlyQuery "SELECT * FROM fits_files" = none from by decide]

/-- Witness for C5: the gate at work on concrete queries. -/
theorem C5_witness :
    executeReadOnlyQuery (fun _ => ([] : List Nat)) "SELECT x; PRAGMA y" =
      Except.error "forbidden keyword in query: PRAGMA" :=
  C5_executeReadOnlyQuery_validation_gate.2.1 Nat (fun _ => [])
    "SELECT x; PRAGMA y" "forbidden keyword in query: PRAGMA" (by decide)

/-- C6: the observation-date derivation converts a Modified Julian Date by the
standard Julian-day-number algorithm, mapping MJD 58849 to 2020-01-01; with no
Julian-date header it falls back first to the date component of the parsed UTC
timestamp, and then to trying the raw date header against the ordered list of
known formats. -/
theorem C6_observation_date_derivation :
    julianToDateString 58849 = "2020-01-01" ∧
    (∀ (jd : Rat) (utc : Option String) (raw : String),
      deriveObservationDate (some jd) utc raw = some (julianToDateString jd)) ∧
    (∀ (u : String) (t : GoTime) (raw : String),
      goTimeParse layoutRFC3339 u = some t →
      deriveObservationDate none (some u) raw = some (formatDateOnly t)) ∧
    (∀ raw : String, raw ≠ "" →
      deriveObservationDate none none raw = tryObsFormats obsDateFormats raw) ∧
    (∀ (header : Header) (relPath hash : String) (mt : Int),
      (extractMetadata header relPath hash mt).observationDate =
        deriveObservationDate
          (getFloatHeader header ["MJD-OBS", "JD", "JULIAN", "JD-OBS"])
          ((extractMetadata header relPath hash mt).utcTime)
          (getStringHeader header ["DATE-OBS", "DATE_OBS", "DATEOBS"])) := by
  refine ⟨?_, fun jd utc raw => rfl, ?_, ?_, fun header relPath hash mt => rfl⟩
  · unfold julianToDateString ratTrunc
    simp only [rat_floor_eq]
    norm_num
    simp only [show Int.tdiv 16 4 = 4 from by decide]
    norm_num [Int.floor_eq_iff]
    decide
  · intro u t raw h
    show (match goTimeParse layoutRFC3339 u with
          | some t => some (formatDateOnly t)
          | none => none) = some (formatDateOnly t)
    rw [h]
  · intro raw h
    show (if raw ≠ "" then tryObsFormats obsDateFormats raw else none) =
      tryObsFormats obsDateFormats raw
    rw [if_pos h]

/-- Witness for C6: the UTC fallback at a concrete parsed timestamp. -/
theorem C6_witness :
    deriveObservationDate none (some "2021-03-05T01:02:03Z") "" =
      some "2021-03-05" :=
  C6_observation_date_derivation.2.2.1 "2021-03-05T01:02:03Z"
    ⟨2021, 3, 5, 1, 2, 3, 0⟩ "" (by decide)

/-- A list is a leading segment of itself followed by anything. -/
theorem listLeads_append {α : Type} [BEq α] [LawfulBEq α] (p t : List α) :
    listLeads p (p ++ t) = true := by
  induction p with
  | nil => rfl
  | cons a as ih => simp [listLeads, ih]

/-- Stripping a path's own base leaves exactly the remainder. -/
theorem commonStrip_append (b rest : List String) :
    commonStrip b (b ++ rest) = ([], rest) := by
  induction b with
  | nil => rfl
  | cons a as ih => simp [commonStrip, ih]

/-- When the base is not an ancestor, stripping leaves base components. -/
theorem commonStrip_fst_ne {b p : List String} (h : listLeads b p = false) :
    (commonStrip b p).1 ≠ [] := by
  induction b generalizing p with
  | nil => simp [listLeads] at h
  | cons a as ih =>
    cases p with
    | nil => simp [commonStrip]
    | cons c cs =>
      by_cases hac : (a == c) = true
      · have h2 : listLeads as cs = false := by simpa [listLeads, hac] using h
        simpa [commonStrip, hac] using ih h2
      · simp [commonStrip, hac]

/-- A path list starting with .. renders to a string starting with .. -/
theorem goStarts_dotdot (l : List String) :
    goStarts (joinSlash (".." :: l)) ".." = true := by
  cases l with
  | nil => decide
  | cons x xs =>
    show listLeads "..".data (".." ++ "/" ++ joinSlash (x :: xs)).data = true
    rw [show (".." ++ "/" ++ joinSlash (x :: xs)).data =
        '.' :: '.' :: '/' :: (joinSlash (x :: xs)).data from by
      rw [String.data_append, String.data_append]; rfl]
    rfl

/-- filepath.Rel against a base that is not an ancestor starts with .. -/
theorem filepathRel_not_under {b p : List String} (h : listLeads b p = false) :
    goStarts (filepathRel b p) ".." = true := by
  have hne := commonStrip_fst_ne h
  unfold filepathRel
  cases hcs : commonStrip b p with
  | mk br tr =>
    rw [hcs] at hne
    cases br with
    | nil => exact absurd rfl hne
    | cons b0 bs =>
      show goStarts (joinSlash
        (List.replicate (b0 :: bs).length ".." ++ tr)) ".." = true
      rw [List.length_cons, List.replicate_succ, List.cons_append]
      exact goStarts_dotdot _

/-- filepath.Rel against the owning base is the remainder joined. -/
theorem filepathRel_under (b rest : List String) (hne : rest ≠ []) :
    filepathRel b (b ++ rest) = joinSlash rest := by
  unfold filepathRel
  rw [commonStrip_append]
  cases rest with
  | nil => exact absurd rfl hne
  | cons r rs => rfl

/-- Two non-overlapping base directories: the second is not an ancestor of
any file under the first. -/
theorem not_under_of_nonoverlap {b1 b2 : List String} (rest : List String)
    (h12 : listLeads b1 b2 = false) (h21 : listLeads b2 b1 = false) :
    listLeads b2 (b1 ++ rest) = false := by
  induction b1 generalizing b2 with
  | nil => simp [listLeads] at h12
  | cons a as ih =>
    cases b2 with
    | nil => simp [listLeads] at h21
    | cons c cs =>
      show listLeads (c :: cs) (a :: (as ++ rest)) = false
      by_cases hca : (c == a) = true
      · obtain rfl : c = a := eq_of_beq hca
        have h12a : listLeads as cs = false := by simpa [listLeads] using h12
        have h21a : listLeads cs as = false := by simpa [listLeads] using h21
        simpa [listLeads] using ih h12a h21a
      · simp [listLeads, hca]

/-- C7 counterexample: with the non-overlapping bases /data/a and /data/b,
the file /data/a/..x.fits lies under /data/a, yet GetRelativePath reports it
as under no configured base directory, because its relative remainder
textually starts with .. and is rejected by the ancestor check. -/
theorem C7_counterexample :
    listLeads ["data", "a"] ["data", "b"] = false ∧
    listLeads ["data", "b"] ["data", "a"] = false ∧
    listLeads ["data", "a"] ["data", "a", "..x.fits"] = true ∧
    exceptOk (getRelativePath [["data", "a"], ["data", "b"]]
      ["data", "a", "..x.fits"]) = false := by
  decide

/-- C7 (amended): for two non-overlapping base directories, every file under
one of them whose relative remainder does not textually start with ..
resolves to exactly its owning directory, in either configuration order; a
file under no configured base directory yields an error. -/
theorem C7_first_matching_base_resolution :
    (∀ (b1 b2 rest : List String),
      listLeads b1 b2 = false → listLeads b2 b1 = false → rest ≠ [] →
      goStarts (joinSlash rest) ".." = false →
      getRelativePath [b1, b2] (b1 ++ rest) = Except.ok (joinSlash rest) ∧
      getRelativePath [b2, b1] (b1 ++ rest) = Except.ok (joinSlash rest)) ∧
    (∀ (bases : List (List String)) (p : List String),
      (∀ b ∈ bases, listLeads b p = false) →
      ∃ msg, getRelativePath bases p = Except.error msg) := by
  constructor
  · intro b1 b2 rest h12 h21 hne hdots
    have hrel1 : filepathRel b1 (b1 ++ rest) = joinSlash rest :=
      filepathRel_under b1 rest hne
    have hrel2 : goStarts (filepathRel b2 (b1 ++ rest)) ".." = true :=
      filepathRel_not_under (not_under_of_nonoverlap rest h12 h21)
    constructor
    · simp only [getRelativePath, hrel1]
      rw [if_neg (by simp [hdots])]
    · simp only [getRelativePath, hrel1]
      rw [if_pos hrel2, if_neg (by simp [hdots])]
  · intro bases p hall
    induction bases with
    | nil => exact ⟨_, rfl⟩
    | cons b bs ih =>
      have h1 : goStarts (filepathRel b p) ".." = true :=
        filepathRel_not_under (hall b (List.mem_cons_self b bs))
      obtain ⟨msg, hmsg⟩ := ih (fun b2 hb2 => hall b2 (List.mem_cons_of_mem b hb2))
      refine ⟨msg, ?_⟩
      simp only [getRelativePath]
      rw [if_pos h1]
      exact hmsg

/-- Witness for C7: a file under the first of two disjoint bases resolves to
its owning directory in either order of configuration. -/
theorem C7_witness :
    getRelativePath [["data", "x"], ["data", "y"]]
      (["data", "x"] ++ ["f.fits"]) = Except.ok (joinSlash ["f.fits"]) ∧
    getRelativePath [["data", "y"], ["data", "x"]]
      (["data", "x"] ++ ["f.fits"]) = Except.ok (joinSlash ["f.fits"]) :=
  C7_first_matching_base_resolution.1 ["data", "x"] ["data", "y"] ["f.fits"]
    (by decide) (by decide) (by decide) (by decide)

/-- C8: the query_fits_archive handler clamps any requested limit above 1000
down to 1000, so at most 1000 rows are returned, and QueryFiles output is
ordered by utc_time descending. -/
theorem C8_query_limit_clamp_and_order :
    (∀ q : Rat, 1000 < ratTrunc q → effectiveLimit (some q) = 1000) ∧
    (∀ (db : List StoredRow) (flt : QueryFilters) (q : Rat) (off : Option Rat),
      1000 < ratTrunc q →
      (queryFitsArchive db flt (some q) off).length ≤ 1000) ∧
    (∀ (db : List StoredRow) (flt : QueryFilters) (lim off : Int),
      List.Sorted utcDescRel (queryFiles db flt lim off)) := by
  have hclamp : ∀ q : Rat, 1000 < ratTrunc q → effectiveLimit (some q) = 1000 := by
    intro q h
    simp only [effectiveLimit]
    rw [if_pos h]
  refine ⟨hclamp, ?_, ?_⟩
  · intro db flt q off h
    unfold queryFitsArchive
    rw [hclamp q h]
    unfold queryFiles
    rw [if_neg (by norm_num)]
    exact List.length_take_le _ _
  · intro db flt lim off
    have h1 := List.sorted_insertionSort utcDescRel
      ((db.map (fun r => r.fits)).filter (rowMatches flt))
    have h2 : List.Sorted utcDescRel ((List.insertionSort utcDescRel
        ((db.map (fun r => r.fits)).filter (rowMatches flt))).drop off.toNat) :=
      List.Pairwise.sublist (List.drop_sublist _ _) h1
    unfold queryFiles
    by_cases hneg : lim < 0
    · simpa [hneg] using h2
    · have h3 := List.Pairwise.sublist (List.take_sublist lim.toNat _) h2
      simpa [hneg] using h3

/-- Witness for C8: a request for 2000 rows is capped at 1000. -/
theorem C8_witness :
    effectiveLimit (some 2000) = 1000 ∧
    (queryFitsArchive [] {} (some 2000) none).length ≤ 1000 :=
  ⟨C8_query_limit_clamp_and_order.1 2000
      (by norm_num [ratTrunc, rat_floor_eq]),
   C8_query_limit_clamp_and_order.2.1 [] {} 2000 none
      (by norm_num [ratTrunc, rat_floor_eq])⟩

/-- C9: a rescan trigger that arrives while the scanningNow flag is set is
rejected synchronously with state unchanged; but the claim that at most one
scan is in flight in every reachable state fails: the startup scan goroutine
never sets scanningNow, so a trigger arriving during the startup scan is
accepted and two scans run concurrently. -/
theorem C9_rescan_rejection_and_startup_gap :
    (∀ s : ServerState, s.scanningNow = true →
      stepEvent s ScanEvent.rescanRequest = some (s, some false)) ∧
    stepEvent initState ScanEvent.startupBegin =
      some ({ scanningNow := false, startupRunning := true,
              startupDone := false, rescans := 0 }, none) ∧
    stepEvent { scanningNow := false, startupRunning := true,
                startupDone := false, rescans := 0 } ScanEvent.rescanRequest =
      some ({ scanningNow := true, startupRunning := true,
              startupDone := false, rescans := 1 }, some true) ∧
    Reachable { scanningNow := true, startupRunning := true,
                startupDone := false, rescans := 1 } ∧
    scansInFlight { scanningNow := true, startupRunning := true,
                    startupDone := false, rescans := 1 } = 2 := by
  refine ⟨?_, by decide, by decide, ?_, by decide⟩
  · intro s h
    unfold stepEvent
    rw [if_pos h]
  · exact Reachable.step (Reachable.step Reachable.init
      (by decide : stepEvent initState ScanEvent.startupBegin =
        some (⟨false, true, false, 0⟩, none)))
      (by decide : stepEvent ⟨false, true, false, 0⟩ ScanEvent.rescanRequest =
        some (⟨true, true, false, 1⟩, some true))

/-- Witness for C9: a trigger while a handler-started scan is running is
rejected with the state unchanged. -/
theorem C9_witness :
    stepEvent { scanningNow := true, startupRunning := false,
                startupDone := true, rescans := 1 } ScanEvent.rescanRequest =
      some ({ scanningNow := true, startupRunning := false,
              startupDone := true, rescans := 1 }, some false) :=
  C9_rescan_rejection_and_startup_gap.1
    { scanningNow := true, startupRunning := false,
      startupDone := true, rescans := 1 } (by decide)

end AAA
